import Mathlib

/-!
Shallow embedding of the Kalshi BTC binary-options trading bot
(`production_bot_v5.py` together with its REST client `kalshi_client.py`).

Modelling conventions:
* Python floats (prices, timestamps, balances) are modelled as exact
  rationals (`ℚ`); Kalshi cent prices and contract counts as integers (`ℤ`).
* `time.time()` is passed explicitly as a `now : ℚ` argument.
* The persisted dedup file `state/acted_birth_ts.json` is modelled as an
  extra state component `persistedBirthTime`; a process restart rebuilds
  the in-memory state from it (`restartState`).
* The single external call (`kalshi.create_order` inside
  `StrategyController.on_tick`) is modelled by an explicit outcome
  parameter `LiveResult` (accepted / failure swallowed by the client's
  retry loop / raised exception from outside that loop / process crash
  between dedup persistence and submission), and the retry loop of
  `KalshiClient._request` itself is embedded as `kalshiRequest`.
* Logging is I/O; only the emitted event kinds are reflected
  (`TickOutcome`, `outcomeEvent`, `SettleResult.event`).
-/

/-- Trading side of a Kalshi binary contract (strings `"yes"` / `"no"` in the source). -/
inductive Side
  | yes
  | no
deriving DecidableEq

/-- UT Bot trend signal (strings `'buy'` / `'sell'` in the source). -/
inductive Signal
  | buy
  | sell
deriving DecidableEq

namespace Config

/-- `Config.PAPER_MODE` (source line 61). -/
def PAPER_MODE : Bool := true

/-- `Config.PAPER_START_BALANCE` (62). -/
def PAPER_START_BALANCE : ℚ := 1000

/-- `Config.MAX_DAILY_LOSS` (63). -/
def MAX_DAILY_LOSS : ℚ := 1000000

/-- `Config.UT_BOT_SENSITIVITY` (69). -/
def UT_BOT_SENSITIVITY : ℚ := 1

/-- `Config.UT_BOT_ATR_PERIOD` (70). -/
def UT_BOT_ATR_PERIOD : ℕ := 10

/-- `Config.MAX_STALK_POST_SIGNAL_MIN` (73). -/
def MAX_STALK_POST_SIGNAL_MIN : ℚ := 10

/-- `Config.TIME_ENTRY_MIN_MIN` (80) — declared in the source but never read. -/
def TIME_ENTRY_MIN_MIN : ℚ := 15

/-- `Config.TIME_ENTRY_MAX_MIN` (81). -/
def TIME_ENTRY_MAX_MIN : ℚ := 1

/-- `Config.MARKET_VETO_PRICE` (82). -/
def MARKET_VETO_PRICE : ℤ := 30

/-- `Config.MARKET_MAX_ENTRY_PRICE` (83). -/
def MARKET_MAX_ENTRY_PRICE : ℤ := 75

/-- `Config.MAX_FILLS_PER_SESSION` (85). -/
def MAX_FILLS_PER_SESSION : ℕ := 1

/-- `Config.FLAT_FRAC_PCT` (86): 2%. -/
def FLAT_FRAC_PCT : ℚ := 2/100

/-- `Config.MAX_CONTRACTS_LIMIT` (87). -/
def MAX_CONTRACTS_LIMIT : ℤ := 250

/-- `Config.MAX_ORDERBOOK_STALE_SEC` (89). -/
def MAX_ORDERBOOK_STALE_SEC : ℚ := 10

end Config

/-- `RiskEngine` state (source lines 118-125): the paper/real balances and the
bounded PnL ledger `deque(maxlen=5000)` of `(timestamp, amount)` pairs. -/
structure Risk where
  paperBalance : ℚ
  realBalance : ℚ
  pnlHistory : List (ℚ × ℚ)
deriving DecidableEq

/-- `collections.deque.append` with a `maxlen` bound: the oldest entries fall
off the left once the bound is exceeded. -/
def pushBounded {α : Type} (maxlen : ℕ) (l : List α) (e : α) : List α :=
  let l2 := l ++ [e]
  if maxlen < l2.length then l2.drop (l2.length - maxlen) else l2

/-- `RiskEngine.record_pnl` (124): append `(time.time(), amount)`. -/
def Risk.recordPnl (r : Risk) (now amount : ℚ) : Risk :=
  { r with pnlHistory := pushBounded 5000 r.pnlHistory (now, amount) }

/-- `RiskEngine.rolling_24h_loss` (127-129): sum of the negative PnL entries
whose timestamp is strictly newer than `now - 86400`. -/
def Risk.rolling24hLoss (r : Risk) (now : ℚ) : ℚ :=
  ((r.pnlHistory.filter
      (fun e => decide (now - 86400 < e.1) && decide (e.2 < 0))).map Prod.snd).sum

/-- Python `int(...)` applied to a float: truncation toward zero. -/
def pyInt (q : ℚ) : ℤ := if 0 ≤ q then ⌊q⌋ else -⌊-q⌋

/-- `RiskEngine.calculate_qty` (131-136). -/
def Risk.calculateQty (r : Risk) (paperMode : Bool) (now : ℚ)
    (entryPriceCents : ℤ) : ℤ :=
  let bankroll := if paperMode then r.paperBalance else r.realBalance
  if Config.MAX_DAILY_LOSS < |r.rolling24hLoss now| ∨ bankroll ≤ 0 then 0
  else
    let dollarRisk := bankroll * Config.FLAT_FRAC_PCT
    let qty := pyInt (dollarRisk / ((entryPriceCents : ℚ) / 100))
    min (max 0 qty) Config.MAX_CONTRACTS_LIMIT

/-- A 1-minute OHLCV candle (the dict built by `CandleBuilder`, source 573;
the field `open` is a Lean keyword, rendered `opn`). `timestamp` is the
minute-bucket start in epoch milliseconds. -/
structure Candle where
  timestamp : ℤ
  opn : ℚ
  high : ℚ
  low : ℚ
  close : ℚ
  volume : ℚ
deriving DecidableEq, Inhabited

/-- `CandleBuilder` state (540-557): bounded closed-candle history plus the
currently forming candle. -/
structure CandleBuilder where
  closed : List Candle
  current : Option Candle
deriving DecidableEq

/-- `CandleBuilder.MAX_CANDLES` (553). -/
def MAX_CANDLES : ℕ := 1000

/-- `CandleBuilder._minute_bucket` (559-561): floor the millisecond timestamp
to the start of its UTC minute. -/
def minuteBucket (tsMs : ℚ) : ℤ := ⌊tsMs / 60000⌋ * 60000

/-- `CandleBuilder.update` (563-594): feed one `(timestamp_ms, price)` tick;
returns the new builder state and whether a candle was just closed. -/
def CandleBuilder.update (b : CandleBuilder) (tsMs price : ℚ) :
    CandleBuilder × Bool :=
  let bucket := minuteBucket tsMs
  match b.current with
  | none =>
      ({ b with current := some ⟨bucket, price, price, price, price, 0⟩ }, false)
  | some c =>
      if bucket ≠ c.timestamp then
        ({ closed := pushBounded MAX_CANDLES b.closed c,
           current := some ⟨bucket, price, price, price, price, 0⟩ }, true)
      else
        let c2 : Candle :=
          { c with high := max c.high price, low := min c.low price, close := price }
        ({ b with current := some c2 }, false)

/-- `CandleBuilder.as_dataframe` (596-610): closed candles plus the live
forming candle appended. -/
def CandleBuilder.asDataframe (b : CandleBuilder) : List Candle :=
  match b.current with
  | none => b.closed
  | some c => b.closed ++ [c]

/-- Claim C9: re-ingesting the identical `(timestamp, price)` tick right after
ingesting it leaves the whole builder — in particular the forming candle's
open, high, low, close and volume — unchanged, and closes no candle. -/
theorem C9_candle_update_idempotent :
    ∀ (b : CandleBuilder) (tsMs price : ℚ),
      CandleBuilder.update (CandleBuilder.update b tsMs price).1 tsMs price
        = ((CandleBuilder.update b tsMs price).1, false) := by
  intro b tsMs price
  rcases b with ⟨cl, cur⟩
  cases cur with
  | none =>
      simp [CandleBuilder.update, max_self, min_self]
  | some c =>
      by_cases h : minuteBucket tsMs ≠ c.timestamp
      · simp [CandleBuilder.update, h, max_self, min_self]
      · push_neg at h
        simp [CandleBuilder.update, h, max_self, min_self, max_assoc, min_assoc]

/-- The shared indicator cache `SharedState` (139-154): the atomically
published tuple `{signal, atr, stop, price, birthTimestamp}`.  `ut_signal`
is initialised to `None` in the source, hence the `Option`. -/
structure Shared where
  latestBtc : ℚ
  utSignal : Option Signal
  utAtr : ℚ
  utStop : ℚ
  signalBirthTime : ℚ
deriving DecidableEq

/-- True range of bar `i` (`calculate_ut_bot`, 162-167).  Row 0 has no
previous close (`shift(1)` yields NaN, skipped by the pandas row-max), so
its true range is `high - low`. -/
def trueRange (bars : List Candle) : ℕ → ℚ
  | 0 => (bars.getD 0 default).high - (bars.getD 0 default).low
  | i + 1 =>
      let b := bars.getD (i + 1) default
      let pc := (bars.getD i default).close
      max (b.high - b.low) (max |b.high - pc| |b.low - pc|)

/-- Wilder RMA smoothing of the true range (`calculate_ut_bot`, 169-173):
`atr` is a zero array except `atr[n-1] = mean(tr[0..n-1])` and
`atr[i] = (tr[i] - atr[i-1])·(1/n) + atr[i-1]` for `i ≥ n`. -/
def wilderAtr (bars : List Candle) (n : ℕ) : ℕ → ℚ
  | 0 =>
      if 1 < n then 0
      else ((List.range n).map (trueRange bars)).sum / n
  | i + 1 =>
      if i + 2 < n then 0
      else if i + 2 = n then ((List.range n).map (trueRange bars)).sum / n
      else (trueRange bars (i + 1) - wilderAtr bars n i) * (1 / (n : ℚ))
            + wilderAtr bars n i

/-- Trailing-stop array of `calculate_ut_bot` (178-190).  `stops[0] = 0`; the
loop runs from `i = 1` and leaves `stops[i] = 0` untouched whenever
`atr[i] == 0` (the `continue` on line 180); otherwise it applies the
four-branch UT Bot recursion with `nl = k·atr[i]`. -/
def utStop (bars : List Candle) (n : ℕ) (k : ℚ) : ℕ → ℚ
  | 0 => 0
  | i + 1 =>
      if wilderAtr bars n (i + 1) = 0 then 0
      else
        let pStop := utStop bars n k i
        let pClose := (bars.getD i default).close
        let cClose := (bars.getD (i + 1) default).close
        let nl := k * wilderAtr bars n (i + 1)
        if pStop < cClose ∧ pStop < pClose then max pStop (cClose - nl)
        else if cClose < pStop ∧ pClose < pStop then min pStop (cClose + nl)
        else if pStop < cClose then cClose - nl
        else cClose + nl

/-- `df['ut_signal']` (191): `'buy'` where `close > xATRTrailingStop`, else
`'sell'`. -/
def utSignalAt (bars : List Candle) (n : ℕ) (k : ℚ) (i : ℕ) : Signal :=
  if utStop bars n k i < (bars.getD i default).close then Signal.buy else Signal.sell

/-- `df['flipped']` (192): `ut_signal != ut_signal.shift(1)`; row 0 compares
against NaN and is therefore `True`. -/
def flippedAt (bars : List Candle) (n : ℕ) (k : ℚ) : ℕ → Bool
  | 0 => true
  | i + 1 => decide (utSignalAt bars n k (i + 1) ≠ utSignalAt bars n k i)

/-- `df['birth_ts']` (193): `(timestamp/1000).where(flipped).ffill()` — the
second-of-epoch timestamp of the most recent signal flip at or before `i`. -/
def birthTsAt (bars : List Candle) (n : ℕ) (k : ℚ) : ℕ → ℚ
  | 0 => ((bars.getD 0 default).timestamp : ℚ) / 1000
  | i + 1 =>
      if flippedAt bars n k (i + 1) then ((bars.getD (i + 1) default).timestamp : ℚ) / 1000
      else birthTsAt bars n k i

/-- The publication step of `ohlcv_candle_loop` (705-721): after
`calculate_ut_bot`, the tuple passed to `shared_state.update_indicator` is
taken entirely from `live_c = df.iloc[-1]` — signal, ATR, trailing stop,
close *and* `birth_ts`.  (`last_c = df.iloc[-2]` is bound on line 712 but
never used.) -/
def publishIndicator (bars : List Candle) (n : ℕ) (k : ℚ) : Shared :=
  let last := bars.length - 1
  { latestBtc := (bars.getD last default).close
    utSignal := some (utSignalAt bars n k last)
    utAtr := wilderAtr bars n last
    utStop := utStop bars n k last
    signalBirthTime := birthTsAt bars n k last }

/-- The trailing-stop recursion step exactly as the specification words it
(spec §4.2), with no guard on `atr[i] = 0`. -/
def specStopStep (pStop pClose cClose nl : ℚ) : ℚ :=
  if pStop < cClose ∧ pStop < pClose then max pStop (cClose - nl)
  else if cClose < pStop ∧ pClose < pStop then min pStop (cClose + nl)
  else if pStop < cClose then cClose - nl
  else cClose + nl

/-- The trailing-stop sequence exactly as the specification words it
(spec §4.2): `stop[0] = 0` and `stop[i] = specStopStep` at every `i ≥ 1`,
with `nLoss[i] = k·atr[i]` and no skipped indices. -/
def specStop (bars : List Candle) (n : ℕ) (k : ℚ) : ℕ → ℚ
  | 0 => 0
  | i + 1 =>
      specStopStep (specStop bars n k i) ((bars.getD i default).close)
        ((bars.getD (i + 1) default).close) (k * wilderAtr bars n (i + 1))

/-- A 12-bar sequence (the shortest length `ohlcv_candle_loop` feeds to the
indicator at the default ATR period 10): one flat 1-minute candle at price
10 per minute. -/
def flatBars : List Candle :=
  [⟨0, 10, 10, 10, 10, 0⟩, ⟨60000, 10, 10, 10, 10, 0⟩,
   ⟨120000, 10, 10, 10, 10, 0⟩, ⟨180000, 10, 10, 10, 10, 0⟩,
   ⟨240000, 10, 10, 10, 10, 0⟩, ⟨300000, 10, 10, 10, 10, 0⟩,
   ⟨360000, 10, 10, 10, 10, 0⟩, ⟨420000, 10, 10, 10, 10, 0⟩,
   ⟨480000, 10, 10, 10, 10, 0⟩, ⟨540000, 10, 10, 10, 10, 0⟩,
   ⟨600000, 10, 10, 10, 10, 0⟩, ⟨660000, 10, 10, 10, 10, 0⟩]

/-- A 13-bar sequence: twelve closed candles in a steady up-trend regime
(close 100, high 105, low 95) followed by a live forming candle that has
dropped to 80, flipping the signal to sell on the live bar. -/
def dropBars : List Candle :=
  [⟨0, 100, 105, 95, 100, 0⟩, ⟨60000, 100, 105, 95, 100, 0⟩,
   ⟨120000, 100, 105, 95, 100, 0⟩, ⟨180000, 100, 105, 95, 100, 0⟩,
   ⟨240000, 100, 105, 95, 100, 0⟩, ⟨300000, 100, 105, 95, 100, 0⟩,
   ⟨360000, 100, 105, 95, 100, 0⟩, ⟨420000, 100, 105, 95, 100, 0⟩,
   ⟨480000, 100, 105, 95, 100, 0⟩, ⟨540000, 100, 105, 95, 100, 0⟩,
   ⟨600000, 100, 105, 95, 100, 0⟩, ⟨660000, 100, 105, 95, 100, 0⟩,
   ⟨720000, 80, 80, 80, 80, 0⟩]


/-- Claim C3 (amended): the trailing stop computed by `calculate_ut_bot`
satisfies `stop[0] = 0`; at every `i ≥ 1` with `atr[i] = 0` the loop skips
the bar and `stop[i]` stays `0`; at every `i ≥ 1` with `atr[i] ≠ 0` it
satisfies the four-branch recursion of the specification with
`nLoss[i] = k·atr[i]`; and `signal[i]` is buy exactly when
`close[i] > stop[i]`. -/
theorem C3_trailing_stop_amended :
    ∀ (bars : List Candle) (n : ℕ) (k : ℚ) (i : ℕ),
      utStop bars n k 0 = 0 ∧
      (wilderAtr bars n (i + 1) = 0 → utStop bars n k (i + 1) = 0) ∧
      (wilderAtr bars n (i + 1) ≠ 0 →
        utStop bars n k (i + 1)
          = specStopStep (utStop bars n k i) ((bars.getD i default).close)
              ((bars.getD (i + 1) default).close) (k * wilderAtr bars n (i + 1))) ∧
      (utSignalAt bars n k i = Signal.buy ↔
        utStop bars n k i < (bars.getD i default).close) := by
  intro bars n k i
  refine ⟨rfl, fun h => by simp [utStop, h], fun h => ?_, ?_⟩
  · simp only [utStop, h, if_false, specStopStep]
  · unfold utSignalAt
    split <;> simp_all

/-- Claim C3 counterexample: on the flat 12-bar sequence `flatBars` the code's
trailing stop at index 1 is `0` (the `atr[i] == 0` guard skips the bar),
while the specification's unguarded recursion demands
`max(stop[0], close[1] − nLoss[1]) = max(0, 10 − 0) = 10`. -/
theorem C3_trailing_stop_counterexample :
    utStop flatBars 10 1 1 = 0 ∧ specStop flatBars 10 1 1 = 10 ∧ (0 : ℚ) ≠ 10 := by
  refine ⟨?_, ?_, by norm_num⟩ <;>
    norm_num [utStop, specStop, specStopStep, wilderAtr, trueRange, flatBars]

set_option maxHeartbeats 4000000 in
/-- Claim C3 witness: the amended recursion instantiated on concrete data —
the guard case at `flatBars` index 1 (where `atr = 0`) and the active
recursion case at `dropBars` index 12 (where `atr = 11 ≠ 0`). -/
theorem C3_trailing_stop_amended_witness :
    utStop flatBars 10 1 1 = 0 ∧
    utStop dropBars 10 1 12
      = specStopStep (utStop dropBars 10 1 11) ((dropBars.getD 11 default).close)
          ((dropBars.getD 12 default).close) (1 * wilderAtr dropBars 10 12) :=
  ⟨(C3_trailing_stop_amended flatBars 10 1 0).2.1
      (by norm_num [wilderAtr]),
   (C3_trailing_stop_amended dropBars 10 1 11).2.2.1
      (by norm_num [wilderAtr, trueRange, dropBars, List.range_succ])⟩

set_option maxHeartbeats 4000000 in
/-- Claim C2 (code bug): `ohlcv_candle_loop` publishes the **live** forming
bar's `birth_ts` to the shared state, not the last fully closed bar's.  On
`dropBars` the signal flips on the live bar (index 12, minute 12), so the
published `signalBirthTime` is `720`, while the last fully closed bar
(index 11) still carries the birth timestamp `0` of the flip at bar 0 that
the claim (and the source's own comment, whose `last_c = df.iloc[-2]` is
bound but never used) says should be published. -/
theorem C2_birth_ts_divergence :
    (publishIndicator dropBars 10 1).signalBirthTime = 720 ∧
    birthTsAt dropBars 10 1 (dropBars.length - 2) = 0 ∧
    (720 : ℚ) ≠ 0 := by
  refine ⟨?_, ?_, by norm_num⟩ <;>
    norm_num [publishIndicator, birthTsAt, flippedAt, utSignalAt, utStop,
      wilderAtr, trueRange, dropBars, List.range_succ] <;> decide

/-- The position dict stored by `on_tick` (502-512).  The source stores
`round(signal_age_min, 2)`; the rounding is presentational and kept exact
here. -/
structure Position where
  ticker : String
  side : Side
  qty : ℤ
  entryPrice : ℤ
  utSignal : Option Signal
  utAtr : ℚ
  utStop : ℚ
  signalBirthTime : ℚ
  signalAgeMin : ℚ
deriving DecidableEq

/-- The market tick dict built by `kalshi_market_loop` (762-773) and consumed
by `on_tick`. -/
structure MarketData where
  ticker : String
  strike : ℚ
  minutesLeft : ℚ
  rawYesBid : ℤ
  rawNoBid : ℤ
  askYes : ℤ
  askNo : ℤ
  yesLiq : ℤ
  noLiq : ℤ
  obi : ℚ
deriving DecidableEq

/-- `StrategyController` mutable state (226-242) restricted to the fields the
decision logic reads/writes; `persistedBirthTime` models the contents of
`state/acted_birth_ts.json` (mirrors every `_save_birth_time` call). -/
structure BotState where
  actedOnBirthTime : Option ℚ
  persistedBirthTime : Option ℚ
  sessionFills : ℕ
  activePosition : Option Position
  risk : Risk
  lastValidObTs : ℚ
  lastHeartbeatTs : ℚ
deriving DecidableEq

/-- The `filter_reason` diagnostics set by the gate checks (461-489); the
constructors carry the numeric detail interpolated into the source's
f-strings. -/
inductive FilterReason
  | alreadyActed
  | signalTooOld (ageMin : ℚ)
  | tooCloseToExpiry (minutesLeft : ℚ)
  | orderbookStale
  | priceOutOfRange (price : ℤ)
  | qtyZero
deriving DecidableEq

/-- One attempt of the retry loop in `KalshiClient._request`
(`kalshi_client.py` 76-88): a 429 rate-limit response (back off and
retry, lines 79-81), any other HTTP error status or network exception
(caught by the blanket `except`, lines 84-87), or a 2xx response whose
JSON body is returned (lines 82-83). -/
inductive ReqAttempt
  | rateLimited
  | error
  | success (resp : String)
deriving DecidableEq

/-- The retry loop of `KalshiClient._request` over a budget of attempts:
return the first successful attempt's body; when every attempt in the
budget is rate-limited or errors, fall through to `return {}` (line 88),
modelled as `none`.  No exception ever escapes the loop. -/
def requestWithRetries : List ReqAttempt → ℕ → Option String
  | _, 0 => none
  | [], _ + 1 => none
  | ReqAttempt.success r :: _, _ + 1 => some r
  | _ :: rest, n + 1 => requestWithRetries rest n

/-- `KalshiClient._request` (60-88): `for attempt in range(5)` around the
retry body.  The result is `some body` on the first non-429 2xx response
and `none` (Python `{}`) after five failed attempts — never a raised
exception. -/
def kalshiRequest (attempts : List ReqAttempt) : Option String :=
  requestWithRetries attempts 5

/-- Outcome of the one external call in `on_tick`'s live branch
(`await kalshi.create_order`, line 521), as observable at the call site:

* `accepted` — some attempt succeeded and the exchange accepted the order;
* `swallowed` — the submission failed on every attempt;
  `KalshiClient._request` (`kalshi_client.py` 76-88) catches each failure
  inside its retry loop and returns `{}` (`kalshiRequest _ = none`), so
  `create_order` returns normally and `on_tick` cannot distinguish this
  from `accepted`;
* `raised` — an exception from outside the retry loop (e.g. request
  signing or serialization), the only way `on_tick`'s `except` on line
  528 runs;
* `crash` — process death between dedup persistence (498) and
  submission, the crash scenario of spec §5. -/
inductive LiveResult
  | accepted
  | swallowed
  | raised
  | crash
deriving DecidableEq

/-- What one `on_tick` call did (its log events / control path). -/
inductive TickOutcome
  | silentSkip
  | skip (reason : FilterReason)
  | paperFill (side : Side) (price qty : ℤ)
  | liveFill (side : Side) (price qty : ℤ)
  | liveError (side : Side) (price qty : ℤ)
  | crashedSubmit (side : Side) (price qty : ℤ)
deriving DecidableEq

/-- The order the controller records as placed by an `on_tick` outcome, if
any.  A raised submission (`liveError`) and a crash before submission
record no order.  (A `liveFill` reached via a swallowed failure is still
recorded even though no order rests at the exchange.) -/
def TickOutcome.order : TickOutcome → Option (Side × ℤ × ℤ)
  | .paperFill sd pr q => some (sd, pr, q)
  | .liveFill sd pr q => some (sd, pr, q)
  | _ => none

/-- Number of orders placed by one `on_tick` outcome. -/
def ordersOf : TickOutcome → ℕ
  | .paperFill _ _ _ => 1
  | .liveFill _ _ _ => 1
  | _ => 0

/-- The log event name emitted for an `on_tick` outcome (517, 526, 529). -/
def outcomeEvent : TickOutcome → Option String
  | .paperFill _ _ _ => some "PAPER_BUY"
  | .liveFill _ _ _ => some "LIVE_BUY"
  | .liveError _ _ _ => some "ERROR"
  | _ => none

/-- `signal_age_min` (425): minutes since the signal's birth, `999.0` when no
birth timestamp has been published yet. -/
def signalAgeMin (birthTs now : ℚ) : ℚ :=
  if 0 < birthTs then (now - birthTs) / 60 else 999

/-- `side = "yes" if cur_sig == "buy" else "no"` (475). -/
def chooseSide (sig : Option Signal) : Side :=
  if sig = some Signal.buy then Side.yes else Side.no

/-- `best_bid` selection (476). -/
def bestBidFor (sd : Side) (d : MarketData) : ℤ :=
  match sd with
  | .yes => d.rawYesBid
  | .no => d.rawNoBid

/-- `best_ask` selection (477). -/
def bestAskFor (sd : Side) (d : MarketData) : ℤ :=
  match sd with
  | .yes => d.askYes
  | .no => d.askNo

/-- `maker_price` (478): `max(1, min(99, bid+1 if ask > bid+1 else bid))`. -/
def makerPrice (bestBid bestAsk : ℤ) : ℤ :=
  max 1 (min 99 (if bestBid + 1 < bestAsk then bestBid + 1 else bestBid))

/-- The side chosen on a tick, as a function of the shared indicator. -/
def tickSide (sh : Shared) : Side := chooseSide sh.utSignal

/-- The maker price computed on a tick (474-478). -/
def tickPrice (sh : Shared) (d : MarketData) : ℤ :=
  makerPrice (bestBidFor (tickSide sh) d) (bestAskFor (tickSide sh) d)

/-- The quantity computed on a tick (487): `calculate_qty(maker_price)`. -/
def tickQty (s : BotState) (sh : Shared) (d : MarketData) (now : ℚ)
    (paperMode : Bool) : ℤ :=
  s.risk.calculateQty paperMode now (tickPrice sh d)

/-- The heartbeat block (448-454); only the `last_heartbeat_ts` write is
state, the emitted HRTBT row is I/O. -/
def touchHeartbeat (s : BotState) (now : ℚ) : BotState :=
  if 10 < now - s.lastHeartbeatTs then { s with lastHeartbeatTs := now } else s

/-- The commit step (497-499): set the dedup value, persist it, increment the
fill counter — all before any order submission attempt. -/
def commitState (s : BotState) (birthTs : ℚ) : BotState :=
  { s with actedOnBirthTime := some birthTs,
           persistedBirthTime := some birthTs,
           sessionFills := s.sessionFills + 1 }

/-- The rollback on submission failure (530-533): decrement the fill counter,
clear the dedup value in memory and on disk. -/
def rollbackState (s : BotState) : BotState :=
  { s with sessionFills := s.sessionFills - 1,
           actedOnBirthTime := none,
           persistedBirthTime := none }

/-- The `position_record` dict (502-512). -/
def positionRecord (sh : Shared) (d : MarketData) (sd : Side) (q pr : ℤ)
    (now : ℚ) : Position :=
  { ticker := d.ticker, side := sd, qty := q, entryPrice := pr,
    utSignal := sh.utSignal, utAtr := sh.utAtr, utStop := sh.utStop,
    signalBirthTime := sh.signalBirthTime,
    signalAgeMin := signalAgeMin sh.signalBirthTime now }

/-- `StrategyController.on_tick` (417-533): heartbeat, the six gates in
source order, side/maker-price determination, the price band and quantity
gates, then the commit (dedup persist → fill counter → submission). -/
def onTick (s : BotState) (sh : Shared) (d : MarketData) (now : ℚ)
    (paperMode : Bool) (lr : LiveResult) : BotState × TickOutcome :=
  let s1 := touchHeartbeat s now
  if Config.MAX_FILLS_PER_SESSION ≤ s1.sessionFills then (s1, .silentSkip)
  else if s1.activePosition.isSome then (s1, .silentSkip)
  else if s1.actedOnBirthTime = some sh.signalBirthTime then
    (s1, .skip .alreadyActed)
  else if Config.MAX_STALK_POST_SIGNAL_MIN < signalAgeMin sh.signalBirthTime now then
    (s1, .skip (.signalTooOld (signalAgeMin sh.signalBirthTime now)))
  else if d.minutesLeft < Config.TIME_ENTRY_MAX_MIN then
    (s1, .skip (.tooCloseToExpiry d.minutesLeft))
  else if Config.MAX_ORDERBOOK_STALE_SEC < now - s1.lastValidObTs then
    (s1, .skip .orderbookStale)
  else if ¬(Config.MARKET_VETO_PRICE ≤ tickPrice sh d ∧
            tickPrice sh d ≤ Config.MARKET_MAX_ENTRY_PRICE) then
    (s1, .skip (.priceOutOfRange (tickPrice sh d)))
  else if tickQty s1 sh d now paperMode < 1 then (s1, .skip .qtyZero)
  else if paperMode then
    ({ commitState s1 sh.signalBirthTime with
        risk := { s1.risk with
          paperBalance := s1.risk.paperBalance
            - (tickQty s1 sh d now paperMode : ℚ) * ((tickPrice sh d : ℚ) / 100) },
        activePosition := some (positionRecord sh d (tickSide sh)
          (tickQty s1 sh d now paperMode) (tickPrice sh d) now) },
      .paperFill (tickSide sh) (tickPrice sh d) (tickQty s1 sh d now paperMode))
  else
    match lr with
    | .accepted =>
        ({ commitState s1 sh.signalBirthTime with
            activePosition := some (positionRecord sh d (tickSide sh)
              (tickQty s1 sh d now paperMode) (tickPrice sh d) now) },
          .liveFill (tickSide sh) (tickPrice sh d) (tickQty s1 sh d now paperMode))
    | .swallowed =>
        -- `create_order` returned `{}` after exhausted retries; the `try`
        -- body completes normally, so the code path is the success path.
        ({ commitState s1 sh.signalBirthTime with
            activePosition := some (positionRecord sh d (tickSide sh)
              (tickQty s1 sh d now paperMode) (tickPrice sh d) now) },
          .liveFill (tickSide sh) (tickPrice sh d) (tickQty s1 sh d now paperMode))
    | .raised =>
        (rollbackState (commitState s1 sh.signalBirthTime),
          .liveError (tickSide sh) (tickPrice sh d) (tickQty s1 sh d now paperMode))
    | .crash =>
        (commitState s1 sh.signalBirthTime,
          .crashedSubmit (tickSide sh) (tickPrice sh d) (tickQty s1 sh d now paperMode))

/-- `RiskEngine(Config.PAPER_START_BALANCE)` as built in the controller's
constructor (227). -/
def initRisk : Risk :=
  { paperBalance := Config.PAPER_START_BALANCE, realBalance := 0, pnlHistory := [] }

/-- `StrategyController.__init__` after a (re)start (226-242): fresh counters
and the dedup value reloaded from the persisted file (`_load_birth_time`,
246-253) before any decision is made. -/
def restartState (persisted : Option ℚ) : BotState :=
  { actedOnBirthTime := persisted, persistedBirthTime := persisted,
    sessionFills := 0, activePosition := none, risk := initRisk,
    lastValidObTs := 0, lastHeartbeatTs := 0 }

/-- The session-rollover block of `main` (819-830): position and fill counter
reset; `acted_on_birth_time` deliberately *not* reset. -/
def sessionRollover (s : BotState) : BotState :=
  { s with activePosition := none, sessionFills := 0 }

/-- An event in the decision loop's life: a market tick handled by `on_tick`,
a process restart (which reloads the persisted dedup file before any
decision), or a session rollover (new nearest-expiry ticker in `main`).
Settlement tasks touch only the risk ledger and are modelled separately
(`bgSettle`). -/
inductive BotEvent
  | tick (sh : Shared) (d : MarketData) (now : ℚ) (paperMode : Bool) (lr : LiveResult)
  | restart
  | rollover
deriving DecidableEq

/-- One step of the decision loop; the second component counts orders placed. -/
def stepEvent (s : BotState) : BotEvent → BotState × ℕ
  | .tick sh d now pm lr =>
      ((onTick s sh d now pm lr).1, ordersOf (onTick s sh d now pm lr).2)
  | .restart => (restartState s.persistedBirthTime, 0)
  | .rollover => (sessionRollover s, 0)

/-- Run a sequence of events, accumulating the number of orders placed. -/
def runEvents (s : BotState) : List BotEvent → BotState × ℕ
  | [] => (s, 0)
  | e :: es =>
      ((runEvents (stepEvent s e).1 es).1,
        (stepEvent s e).2 + (runEvents (stepEvent s e).1 es).2)

/-- Every tick in the trace carries the one signal birth timestamp `bt`. -/
def eventBirthIs (bt : ℚ) : BotEvent → Prop
  | .tick sh _ _ _ _ => sh.signalBirthTime = bt
  | _ => True

/-- The dedup invariant: the acted-upon birth timestamp is `bt`, both in
memory and in the persisted file. -/
def DedupInv (bt : ℚ) (s : BotState) : Prop :=
  s.actedOnBirthTime = some bt ∧ s.persistedBirthTime = some bt

theorem touchHeartbeat_acted (s : BotState) (now : ℚ) :
    (touchHeartbeat s now).actedOnBirthTime = s.actedOnBirthTime := by
  unfold touchHeartbeat; split <;> rfl

theorem touchHeartbeat_persisted (s : BotState) (now : ℚ) :
    (touchHeartbeat s now).persistedBirthTime = s.persistedBirthTime := by
  unfold touchHeartbeat; split <;> rfl

theorem touchHeartbeat_fills (s : BotState) (now : ℚ) :
    (touchHeartbeat s now).sessionFills = s.sessionFills := by
  unfold touchHeartbeat; split <;> rfl

theorem touchHeartbeat_pos (s : BotState) (now : ℚ) :
    (touchHeartbeat s now).activePosition = s.activePosition := by
  unfold touchHeartbeat; split <;> rfl

theorem touchHeartbeat_risk (s : BotState) (now : ℚ) :
    (touchHeartbeat s now).risk = s.risk := by
  unfold touchHeartbeat; split <;> rfl

theorem touchHeartbeat_obTs (s : BotState) (now : ℚ) :
    (touchHeartbeat s now).lastValidObTs = s.lastValidObTs := by
  unfold touchHeartbeat; split <;> rfl

/-- When the dedup value already equals the tick's birth timestamp, `on_tick`
places no order and leaves the dedup state (memory and file) untouched. -/
theorem onTick_blocked (s : BotState) (sh : Shared) (d : MarketData) (now : ℚ)
    (pm : Bool) (lr : LiveResult)
    (h : s.actedOnBirthTime = some sh.signalBirthTime) :
    ordersOf (onTick s sh d now pm lr).2 = 0 ∧
    (onTick s sh d now pm lr).1.actedOnBirthTime = s.actedOnBirthTime ∧
    (onTick s sh d now pm lr).1.persistedBirthTime = s.persistedBirthTime := by
  unfold onTick
  by_cases h1 : Config.MAX_FILLS_PER_SESSION ≤ (touchHeartbeat s now).sessionFills
  · simp [h1, ordersOf, touchHeartbeat_acted, touchHeartbeat_persisted]
  · by_cases h2 : (touchHeartbeat s now).activePosition.isSome
    · simp [h1, h2, ordersOf, touchHeartbeat_acted, touchHeartbeat_persisted]
    · have h3 : (touchHeartbeat s now).actedOnBirthTime = some sh.signalBirthTime := by
        rw [touchHeartbeat_acted]; exact h
      simp [h1, h2, h3, ordersOf, touchHeartbeat_acted, touchHeartbeat_persisted]
      exact h.symm

/-- If an `on_tick` call places an order, the post-state carries the tick's
birth timestamp as the dedup value, in memory and in the persisted file. -/
theorem onTick_fill (s : BotState) (sh : Shared) (d : MarketData) (now : ℚ)
    (pm : Bool) (lr : LiveResult) :
    ordersOf (onTick s sh d now pm lr).2 = 1 →
    (onTick s sh d now pm lr).1.actedOnBirthTime = some sh.signalBirthTime ∧
    (onTick s sh d now pm lr).1.persistedBirthTime = some sh.signalBirthTime := by
  unfold onTick
  by_cases h1 : Config.MAX_FILLS_PER_SESSION ≤ (touchHeartbeat s now).sessionFills
  · simp [h1, ordersOf]
  by_cases h2 : (touchHeartbeat s now).activePosition.isSome
  · simp [h1, h2, ordersOf]
  by_cases h3 : (touchHeartbeat s now).actedOnBirthTime = some sh.signalBirthTime
  · simp [h1, h2, h3, ordersOf]
  by_cases h4 : Config.MAX_STALK_POST_SIGNAL_MIN < signalAgeMin sh.signalBirthTime now
  · simp [h1, h2, h3, h4, ordersOf]
  by_cases h5 : d.minutesLeft < Config.TIME_ENTRY_MAX_MIN
  · simp [h1, h2, h3, h4, h5, ordersOf]
  by_cases h6 : Config.MAX_ORDERBOOK_STALE_SEC < now - (touchHeartbeat s now).lastValidObTs
  · simp [h1, h2, h3, h4, h5, h6, ordersOf]
  by_cases h7 : ¬(Config.MARKET_VETO_PRICE ≤ tickPrice sh d ∧
      tickPrice sh d ≤ Config.MARKET_MAX_ENTRY_PRICE)
  · simp [h1, h2, h3, h4, h5, h6, h7, ordersOf]
  by_cases h8 : tickQty (touchHeartbeat s now) sh d now pm < 1
  · simp [h1, h2, h3, h4, h5, h6, h7, h8, ordersOf]
  by_cases h9 : pm = true
  · rw [h9] at h8
    simp [h1, h2, h3, h4, h5, h6, h7, h8, h9, ordersOf, commitState]
  · simp only [Bool.not_eq_true] at h9
    rw [h9] at h8
    cases lr <;>
      simp [h1, h2, h3, h4, h5, h6, h7, h8, h9, ordersOf, commitState, rollbackState]

theorem ordersOf_le_one (o : TickOutcome) : ordersOf o ≤ 1 := by
  cases o <;> simp [ordersOf]

/-- Once the dedup invariant holds for `bt`, a trace of events whose ticks all
carry birth timestamp `bt` places no further order and preserves the
invariant. -/
theorem runEvents_zero_of_inv (bt : ℚ) :
    ∀ (evs : List BotEvent) (s : BotState), DedupInv bt s →
      (∀ e ∈ evs, eventBirthIs bt e) → (runEvents s evs).2 = 0 := by
  intro evs
  induction evs with
  | nil => intro s _ _; simp [runEvents]
  | cons e es ih =>
      intro s hinv hall
      have he := hall e (List.mem_cons_self e es)
      have hes : ∀ x ∈ es, eventBirthIs bt x :=
        fun x hx => hall x (List.mem_cons_of_mem e hx)
      cases e with
      | tick sh d now pm lr =>
          have hbt : sh.signalBirthTime = bt := he
          have hacted : s.actedOnBirthTime = some sh.signalBirthTime := by
            rw [hbt]; exact hinv.1
          obtain ⟨h0, ha, hp⟩ := onTick_blocked s sh d now pm lr hacted
          have hinv2 : DedupInv bt (onTick s sh d now pm lr).1 := by
            refine ⟨?_, ?_⟩
            · rw [ha]; exact hinv.1
            · rw [hp]; exact hinv.2
          simp [runEvents, stepEvent, h0, ih _ hinv2 hes]
      | restart =>
          have hinv2 : DedupInv bt (restartState s.persistedBirthTime) := by
            refine ⟨?_, ?_⟩ <;> simp [restartState, hinv.2]
          simp [runEvents, stepEvent, ih _ hinv2 hes]
      | rollover =>
          have hinv2 : DedupInv bt (sessionRollover s) := by
            refine ⟨?_, ?_⟩ <;> simp [sessionRollover, hinv.1, hinv.2]
          simp [runEvents, stepEvent, ih _ hinv2 hes]

/-- Over any trace whose ticks all carry one birth timestamp `bt`, starting
from any state, at most one order is ever placed. -/
theorem runEvents_le_one (bt : ℚ) :
    ∀ (evs : List BotEvent) (s : BotState),
      (∀ e ∈ evs, eventBirthIs bt e) → (runEvents s evs).2 ≤ 1 := by
  intro evs
  induction evs with
  | nil => intro s _; simp [runEvents]
  | cons e es ih =>
      intro s hall
      have he := hall e (List.mem_cons_self e es)
      have hes : ∀ x ∈ es, eventBirthIs bt x :=
        fun x hx => hall x (List.mem_cons_of_mem e hx)
      cases e with
      | tick sh d now pm lr =>
          by_cases h1 : ordersOf (onTick s sh d now pm lr).2 = 1
          · have hbt : sh.signalBirthTime = bt := he
            obtain ⟨ha, hp⟩ := onTick_fill s sh d now pm lr h1
            have hinv : DedupInv bt (onTick s sh d now pm lr).1 := by
              rw [← hbt]; exact ⟨ha, hp⟩
            have hrest := runEvents_zero_of_inv bt es _ hinv hes
            simp [runEvents, stepEvent, h1, hrest]
          · have h0 : ordersOf (onTick s sh d now pm lr).2 = 0 := by
              have := ordersOf_le_one (onTick s sh d now pm lr).2
              omega
            have := ih (onTick s sh d now pm lr).1 hes
            simp [runEvents, stepEvent, h0]
            omega
      | restart =>
          have := ih (restartState s.persistedBirthTime) hes
          simp [runEvents, stepEvent]
          omega
      | rollover =>
          have := ih (sessionRollover s) hes
          simp [runEvents, stepEvent]
          omega

/-- Claim C1: over any event trace whose ticks share one signal birth
timestamp — any interleaving of ticks (paper or live, submissions
succeeding, failing or crashing mid-submission), process restarts that
reload the persisted dedup file before any decision, and session
rollovers — at most one order is ever placed.  Moreover: a crash between
dedup persistence and submission leaves the birth timestamp already in the
persisted file with no order placed; a session rollover resets the fill
counter and the position but not the dedup value; and a restart loads the
dedup value from the persisted file. -/
theorem C1_dedup_at_most_one_order :
    (∀ (bt : ℚ) (p0 : Option ℚ) (evs : List BotEvent),
        (∀ e ∈ evs, eventBirthIs bt e) →
        (runEvents (restartState p0) evs).2 ≤ 1) ∧
    (∀ (s : BotState) (sh : Shared) (d : MarketData) (now : ℚ)
        (lr : LiveResult) (sd : Side) (pr q : ℤ),
        (onTick s sh d now false lr).2 = TickOutcome.crashedSubmit sd pr q →
        (onTick s sh d now false lr).1.persistedBirthTime = some sh.signalBirthTime ∧
        ordersOf (onTick s sh d now false lr).2 = 0) ∧
    (∀ s : BotState, (sessionRollover s).sessionFills = 0 ∧
        (sessionRollover s).activePosition = none ∧
        (sessionRollover s).actedOnBirthTime = s.actedOnBirthTime ∧
        (sessionRollover s).persistedBirthTime = s.persistedBirthTime) ∧
    (∀ p : Option ℚ, (restartState p).actedOnBirthTime = p) := by
  refine ⟨fun bt p0 evs hall => runEvents_le_one bt evs (restartState p0) hall,
    ?_, fun s => ⟨rfl, rfl, rfl, rfl⟩, fun p => rfl⟩
  intro s sh d now lr sd pr q
  unfold onTick
  by_cases h1 : Config.MAX_FILLS_PER_SESSION ≤ (touchHeartbeat s now).sessionFills
  · intro h; simp [h1] at h
  by_cases h2 : (touchHeartbeat s now).activePosition.isSome
  · intro h; simp [h1, h2] at h
  by_cases h3 : (touchHeartbeat s now).actedOnBirthTime = some sh.signalBirthTime
  · intro h; simp [h1, h2, h3] at h
  by_cases h4 : Config.MAX_STALK_POST_SIGNAL_MIN < signalAgeMin sh.signalBirthTime now
  · intro h; simp [h1, h2, h3, h4] at h
  by_cases h5 : d.minutesLeft < Config.TIME_ENTRY_MAX_MIN
  · intro h; simp [h1, h2, h3, h4, h5] at h
  by_cases h6 : Config.MAX_ORDERBOOK_STALE_SEC < now - (touchHeartbeat s now).lastValidObTs
  · intro h; simp [h1, h2, h3, h4, h5, h6] at h
  by_cases h7 : ¬(Config.MARKET_VETO_PRICE ≤ tickPrice sh d ∧
      tickPrice sh d ≤ Config.MARKET_MAX_ENTRY_PRICE)
  · intro h; simp [h1, h2, h3, h4, h5, h6, h7] at h
  by_cases h8 : tickQty (touchHeartbeat s now) sh d now false < 1
  · intro h; simp [h1, h2, h3, h4, h5, h6, h7, h8] at h
  cases lr with
  | accepted => intro h; simp [h1, h2, h3, h4, h5, h6, h7, h8] at h
  | swallowed => intro h; simp [h1, h2, h3, h4, h5, h6, h7, h8] at h
  | raised => intro h; simp [h1, h2, h3, h4, h5, h6, h7, h8] at h
  | crash =>
      intro _
      constructor
      · simp [h1, h2, h3, h4, h5, h6, h7, h8, commitState]
      · simp [h1, h2, h3, h4, h5, h6, h7, h8, ordersOf]

/-- A sample risk state: $820 paper balance, empty ledger. -/
def sampleRisk : Risk := { paperBalance := 820, realBalance := 0, pnlHistory := [] }

/-- A sample indicator snapshot: a buy signal born at t = 600 s. -/
def sampleShared : Shared :=
  { latestBtc := 50000, utSignal := some Signal.buy, utAtr := 5,
    utStop := 49000, signalBirthTime := 600 }

/-- A sample market tick: yes bid 40, no bid 55, synthesized asks 45/60,
five minutes to expiry. -/
def sampleData : MarketData :=
  { ticker := "KXBTC15M-SAMPLE", strike := 50000, minutesLeft := 5,
    rawYesBid := 40, rawNoBid := 55, askYes := 45, askNo := 60,
    yesLiq := 100, noLiq := 100, obi := 0 }

/-- A sample controller state: fresh session, order book last seen 5 s ago. -/
def sampleState : BotState :=
  { actedOnBirthTime := none, persistedBirthTime := none, sessionFills := 0,
    activePosition := none, risk := sampleRisk, lastValidObTs := 895,
    lastHeartbeatTs := 0 }

/-- A sample trace: two paper ticks on the same signal, a session rollover, a
process restart, then a live tick whose submission fails — all sharing
birth timestamp 600. -/
def sampleEvents : List BotEvent :=
  [BotEvent.tick sampleShared sampleData 900 true LiveResult.accepted,
   BotEvent.tick sampleShared sampleData 905 true LiveResult.accepted,
   BotEvent.rollover,
   BotEvent.restart,
   BotEvent.tick sampleShared sampleData 910 false LiveResult.raised]

/-- Claim C1 witness: the at-most-one-order bound instantiated on the
concrete five-event trace `sampleEvents`. -/
theorem C1_dedup_witness : (runEvents (restartState none) sampleEvents).2 ≤ 1 :=
  C1_dedup_at_most_one_order.1 600 none sampleEvents (by
    intro e he
    fin_cases he <;> simp [eventBirthIs, sampleShared])

/-- Claim C7: the six gates are evaluated in source order — session fill cap,
open position, dedup match, signal age, minutes-left floor, order-book
staleness — the first failing gate short-circuits with its own diagnostic
reason regardless of the later gates' inputs, the first two gates are
silent, and a skipped tick places no order. -/
theorem C7_gate_order_short_circuit :
    ∀ (s : BotState) (sh : Shared) (d : MarketData) (now : ℚ) (pm : Bool)
      (lr : LiveResult),
      (Config.MAX_FILLS_PER_SESSION ≤ s.sessionFills →
        (onTick s sh d now pm lr).2 = TickOutcome.silentSkip) ∧
      (s.sessionFills < Config.MAX_FILLS_PER_SESSION →
        s.activePosition.isSome →
        (onTick s sh d now pm lr).2 = TickOutcome.silentSkip) ∧
      (s.sessionFills < Config.MAX_FILLS_PER_SESSION →
        s.activePosition = none →
        s.actedOnBirthTime = some sh.signalBirthTime →
        (onTick s sh d now pm lr).2 = TickOutcome.skip FilterReason.alreadyActed) ∧
      (s.sessionFills < Config.MAX_FILLS_PER_SESSION →
        s.activePosition = none →
        s.actedOnBirthTime ≠ some sh.signalBirthTime →
        Config.MAX_STALK_POST_SIGNAL_MIN < signalAgeMin sh.signalBirthTime now →
        (onTick s sh d now pm lr).2
          = TickOutcome.skip
              (FilterReason.signalTooOld (signalAgeMin sh.signalBirthTime now))) ∧
      (s.sessionFills < Config.MAX_FILLS_PER_SESSION →
        s.activePosition = none →
        s.actedOnBirthTime ≠ some sh.signalBirthTime →
        ¬Config.MAX_STALK_POST_SIGNAL_MIN < signalAgeMin sh.signalBirthTime now →
        d.minutesLeft < Config.TIME_ENTRY_MAX_MIN →
        (onTick s sh d now pm lr).2
          = TickOutcome.skip (FilterReason.tooCloseToExpiry d.minutesLeft)) ∧
      (s.sessionFills < Config.MAX_FILLS_PER_SESSION →
        s.activePosition = none →
        s.actedOnBirthTime ≠ some sh.signalBirthTime →
        ¬Config.MAX_STALK_POST_SIGNAL_MIN < signalAgeMin sh.signalBirthTime now →
        ¬d.minutesLeft < Config.TIME_ENTRY_MAX_MIN →
        Config.MAX_ORDERBOOK_STALE_SEC < now - s.lastValidObTs →
        (onTick s sh d now pm lr).2 = TickOutcome.skip FilterReason.orderbookStale) ∧
      (∀ r : FilterReason, ordersOf (TickOutcome.skip r) = 0) ∧
      ordersOf TickOutcome.silentSkip = 0 := by
  intro s sh d now pm lr
  refine ⟨?_, ?_, ?_, ?_, ?_, ?_, fun r => rfl, rfl⟩
  · intro g1
    have g1a : Config.MAX_FILLS_PER_SESSION ≤ (touchHeartbeat s now).sessionFills := by
      rwa [touchHeartbeat_fills]
    simp [onTick, g1a]
  · intro g1 g2
    have g1a : ¬Config.MAX_FILLS_PER_SESSION ≤ (touchHeartbeat s now).sessionFills := by
      rw [touchHeartbeat_fills]; omega
    have g2a : (touchHeartbeat s now).activePosition.isSome := by
      rwa [touchHeartbeat_pos]
    simp [onTick, g1a, g2a]
  · intro g1 g2 g3
    have g1a : ¬Config.MAX_FILLS_PER_SESSION ≤ (touchHeartbeat s now).sessionFills := by
      rw [touchHeartbeat_fills]; omega
    have g2a : ¬(touchHeartbeat s now).activePosition.isSome = true := by
      rw [touchHeartbeat_pos, g2]; simp
    have g3a : (touchHeartbeat s now).actedOnBirthTime = some sh.signalBirthTime := by
      rwa [touchHeartbeat_acted]
    simp [onTick, g1a, g2a, g3a]
  · intro g1 g2 g3 g4
    have g1a : ¬Config.MAX_FILLS_PER_SESSION ≤ (touchHeartbeat s now).sessionFills := by
      rw [touchHeartbeat_fills]; omega
    have g2a : ¬(touchHeartbeat s now).activePosition.isSome = true := by
      rw [touchHeartbeat_pos, g2]; simp
    have g3a : ¬(touchHeartbeat s now).actedOnBirthTime = some sh.signalBirthTime := by
      rwa [touchHeartbeat_acted]
    simp [onTick, g1a, g2a, g3a, g4]
  · intro g1 g2 g3 g4 g5
    have g1a : ¬Config.MAX_FILLS_PER_SESSION ≤ (touchHeartbeat s now).sessionFills := by
      rw [touchHeartbeat_fills]; omega
    have g2a : ¬(touchHeartbeat s now).activePosition.isSome = true := by
      rw [touchHeartbeat_pos, g2]; simp
    have g3a : ¬(touchHeartbeat s now).actedOnBirthTime = some sh.signalBirthTime := by
      rwa [touchHeartbeat_acted]
    simp [onTick, g1a, g2a, g3a, g4, g5]
  · intro g1 g2 g3 g4 g5 g6
    have g1a : ¬Config.MAX_FILLS_PER_SESSION ≤ (touchHeartbeat s now).sessionFills := by
      rw [touchHeartbeat_fills]; omega
    have g2a : ¬(touchHeartbeat s now).activePosition.isSome = true := by
      rw [touchHeartbeat_pos, g2]; simp
    have g3a : ¬(touchHeartbeat s now).actedOnBirthTime = some sh.signalBirthTime := by
      rwa [touchHeartbeat_acted]
    have g6a : Config.MAX_ORDERBOOK_STALE_SEC < now - (touchHeartbeat s now).lastValidObTs := by
      rwa [touchHeartbeat_obTs]
    simp [onTick, g1a, g2a, g3a, g4, g5, g6a]

/-- The market tick of the claim's first gate-independence example: 20 minutes
left, everything else as in `sampleData`. -/
def oldSignalData : MarketData := { sampleData with minutesLeft := 20 }

/-- A controller state whose only failing gate is order-book staleness. -/
def staleState : BotState := { sampleState with lastValidObTs := 0 }

/-- Claim C7 witness: a tick with signal age 15 minutes and 20 minutes left is
skipped with the signal-too-old reason, not a later gate's; a tick failing
only the staleness gate is skipped with the orderbook-stale reason. -/
theorem C7_gate_order_witness :
    (onTick sampleState sampleShared oldSignalData 1500 true LiveResult.accepted).2
      = TickOutcome.skip
          (FilterReason.signalTooOld (signalAgeMin sampleShared.signalBirthTime 1500)) ∧
    (onTick staleState sampleShared sampleData 910 true LiveResult.accepted).2
      = TickOutcome.skip FilterReason.orderbookStale :=
  ⟨(C7_gate_order_short_circuit sampleState sampleShared oldSignalData 1500 true
      LiveResult.accepted).2.2.2.1
      (by norm_num [sampleState, Config.MAX_FILLS_PER_SESSION])
      (by norm_num [sampleState])
      (by simp [sampleState])
      (by norm_num [sampleShared, signalAgeMin,
            Config.MAX_STALK_POST_SIGNAL_MIN]),
   (C7_gate_order_short_circuit staleState sampleShared sampleData 910 true
      LiveResult.accepted).2.2.2.2.2.1
      (by norm_num [staleState, sampleState, Config.MAX_FILLS_PER_SESSION])
      (by norm_num [staleState, sampleState])
      (by simp [staleState, sampleState])
      (by norm_num [sampleShared, signalAgeMin, Config.MAX_STALK_POST_SIGNAL_MIN])
      (by norm_num [sampleData, Config.TIME_ENTRY_MAX_MIN])
      (by norm_num [staleState, sampleState, Config.MAX_ORDERBOOK_STALE_SEC])⟩

/-- Claim C4: the chosen side is yes exactly when the signal is buy; the maker
price is `clamp(1, 99, bestBid+1 if bestAsk > bestBid+1 else bestBid)` on
the chosen side's best bid and ask — in particular `(40, 45) ↦ 41` and
`(40, 41) ↦ 40` — and for any book with `0 ≤ bestBid < bestAsk` the maker
price never exceeds the best ask (never crosses the spread); every order
`on_tick` places carries exactly this side and price. -/
theorem C4_maker_pricing :
    (∀ sig : Option Signal, chooseSide sig = Side.yes ↔ sig = some Signal.buy) ∧
    makerPrice 40 45 = 41 ∧
    makerPrice 40 41 = 40 ∧
    (∀ bestBid bestAsk : ℤ, 0 ≤ bestBid → bestBid < bestAsk →
      makerPrice bestBid bestAsk ≤ bestAsk) ∧
    (∀ (s : BotState) (sh : Shared) (d : MarketData) (now : ℚ) (pm : Bool)
        (lr : LiveResult) (sd : Side) (pr q : ℤ),
        (onTick s sh d now pm lr).2.order = some (sd, pr, q) →
        sd = chooseSide sh.utSignal ∧
        pr = makerPrice (bestBidFor sd d) (bestAskFor sd d)) := by
  refine ⟨?_, by norm_num [makerPrice], by norm_num [makerPrice], ?_, ?_⟩
  · intro sig
    rcases sig with _ | sg
    · simp [chooseSide]
    · cases sg <;> simp [chooseSide]
  · intro bestBid bestAsk hb hlt
    by_cases hc : bestBid + 1 < bestAsk <;>
      simp only [makerPrice, hc, if_true, if_false] <;> omega
  · intro s sh d now pm lr sd pr q
    unfold onTick
    by_cases h1 : Config.MAX_FILLS_PER_SESSION ≤ (touchHeartbeat s now).sessionFills
    · intro h; simp [h1, TickOutcome.order] at h
    by_cases h2 : (touchHeartbeat s now).activePosition.isSome
    · intro h; simp [h1, h2, TickOutcome.order] at h
    by_cases h3 : (touchHeartbeat s now).actedOnBirthTime = some sh.signalBirthTime
    · intro h; simp [h1, h2, h3, TickOutcome.order] at h
    by_cases h4 : Config.MAX_STALK_POST_SIGNAL_MIN < signalAgeMin sh.signalBirthTime now
    · intro h; simp [h1, h2, h3, h4, TickOutcome.order] at h
    by_cases h5 : d.minutesLeft < Config.TIME_ENTRY_MAX_MIN
    · intro h; simp [h1, h2, h3, h4, h5, TickOutcome.order] at h
    by_cases h6 : Config.MAX_ORDERBOOK_STALE_SEC < now - (touchHeartbeat s now).lastValidObTs
    · intro h; simp [h1, h2, h3, h4, h5, h6, TickOutcome.order] at h
    by_cases h7 : ¬(Config.MARKET_VETO_PRICE ≤ tickPrice sh d ∧
        tickPrice sh d ≤ Config.MARKET_MAX_ENTRY_PRICE)
    · intro h; simp [h1, h2, h3, h4, h5, h6, h7, TickOutcome.order] at h
    by_cases h8 : tickQty (touchHeartbeat s now) sh d now pm < 1
    · intro h; simp [h1, h2, h3, h4, h5, h6, h7, h8, TickOutcome.order] at h
    by_cases h9 : pm = true
    · rw [h9] at h8 ⊢
      intro h
      simp [h1, h2, h3, h4, h5, h6, h7, h8, TickOutcome.order] at h
      obtain ⟨hsd, hpr, _⟩ := h
      subst hsd hpr
      exact ⟨rfl, rfl⟩
    · simp only [Bool.not_eq_true] at h9
      rw [h9] at h8 ⊢
      cases lr with
      | accepted =>
          intro h
          simp [h1, h2, h3, h4, h5, h6, h7, h8, TickOutcome.order] at h
          obtain ⟨hsd, hpr, _⟩ := h
          subst hsd hpr
          exact ⟨rfl, rfl⟩
      | swallowed =>
          intro h
          simp [h1, h2, h3, h4, h5, h6, h7, h8, TickOutcome.order] at h
          obtain ⟨hsd, hpr, _⟩ := h
          subst hsd hpr
          exact ⟨rfl, rfl⟩
      | raised => intro h; simp [h1, h2, h3, h4, h5, h6, h7, h8, TickOutcome.order] at h
      | crash => intro h; simp [h1, h2, h3, h4, h5, h6, h7, h8, TickOutcome.order] at h

set_option maxHeartbeats 1000000 in
/-- Claim C4 witness: the no-cross bound at `(40, 45)`, and the order placed
on the concrete all-gates-pass tick `sampleState`/`sampleShared`/
`sampleData` (a paper fill `yes @ 41c × 40`) carries the chosen side and
the maker price. -/
theorem C4_maker_pricing_witness :
    makerPrice 40 45 ≤ 45 ∧
    (Side.yes = chooseSide sampleShared.utSignal ∧
      (41 : ℤ) = makerPrice (bestBidFor Side.yes sampleData) (bestAskFor Side.yes sampleData)) :=
  ⟨C4_maker_pricing.2.2.2.1 40 45 (by norm_num) (by norm_num),
   C4_maker_pricing.2.2.2.2 sampleState sampleShared sampleData 900 true
      LiveResult.accepted Side.yes 41 40 (by
        have hne : ((none : Option ℚ) = some 600) = False := by simp
        simp only [onTick, touchHeartbeat, tickQty, tickPrice, tickSide,
          chooseSide, bestBidFor, bestAskFor, makerPrice, signalAgeMin,
          Risk.calculateQty, Risk.rolling24hLoss, pyInt, sampleState,
          sampleShared, sampleData, sampleRisk]
        norm_num [hne, TickOutcome.order, commitState,
          Config.MAX_FILLS_PER_SESSION, Config.MAX_STALK_POST_SIGNAL_MIN,
          Config.TIME_ENTRY_MAX_MIN, Config.MAX_ORDERBOOK_STALE_SEC,
          Config.MARKET_VETO_PRICE, Config.MARKET_MAX_ENTRY_PRICE,
          Config.MAX_DAILY_LOSS, Config.FLAT_FRAC_PCT,
          Config.MAX_CONTRACTS_LIMIT])⟩

theorem tickQty_touchHeartbeat (s : BotState) (now2 : ℚ) (sh : Shared)
    (d : MarketData) (now : ℚ) (pm : Bool) :
    tickQty (touchHeartbeat s now2) sh d now pm = tickQty s sh d now pm := by
  unfold tickQty; rw [touchHeartbeat_risk]

/-- A live-mode risk state: $820 real balance, empty ledger. -/
def liveRisk : Risk := { paperBalance := 0, realBalance := 820, pnlHistory := [] }

/-- `sampleState` with the live-mode bankroll. -/
def liveState : BotState := { sampleState with risk := liveRisk }

set_option maxHeartbeats 1000000 in
/-- Claim C8 (code bug): the rollback path the claim describes is unreachable
for failed submissions.  `KalshiClient._request` catches every HTTP and
network failure inside its five-attempt retry loop and returns `{}` when
all attempts fail (first conjunct), so `kalshi.create_order` returns
normally instead of raising, and `on_tick`'s transition on such a
swallowed failure is *identical* to a successful submission (second
conjunct).  On the concrete all-gates-pass live tick, a submission that
failed on all five attempts yields a LIVE_BUY event — not ERROR — with
the position recorded and the fill counter and dedup state kept, the
opposite of the claimed rollback.  Only an exception from outside the
retry loop (`LiveResult.raised`, e.g. request signing) reaches the
`except` on line 528 that performs the rollback. -/
theorem C8_swallowed_submission_divergence :
    kalshiRequest (List.replicate 5 ReqAttempt.error) = none ∧
    (∀ (s : BotState) (sh : Shared) (d : MarketData) (now : ℚ),
        onTick s sh d now false LiveResult.swallowed
          = onTick s sh d now false LiveResult.accepted) ∧
    (onTick liveState sampleShared sampleData 900 false LiveResult.swallowed).2
        = TickOutcome.liveFill Side.yes 41 40 ∧
    outcomeEvent
        (onTick liveState sampleShared sampleData 900 false LiveResult.swallowed).2
      = some "LIVE_BUY" ∧
    (onTick liveState sampleShared sampleData 900 false
        LiveResult.swallowed).1.activePosition
      = some (positionRecord sampleShared sampleData Side.yes 40 41 900) ∧
    (onTick liveState sampleShared sampleData 900 false
        LiveResult.swallowed).1.sessionFills = 1 ∧
    (onTick liveState sampleShared sampleData 900 false
        LiveResult.swallowed).1.actedOnBirthTime
      = some sampleShared.signalBirthTime ∧
    (onTick liveState sampleShared sampleData 900 false
        LiveResult.swallowed).1.persistedBirthTime
      = some sampleShared.signalBirthTime := by
  refine ⟨rfl, fun s sh d now => rfl, ?_⟩
  have hne : ((none : Option ℚ) = some 600) = False := by simp
  simp only [onTick, touchHeartbeat, tickQty, tickPrice, tickSide,
    chooseSide, bestBidFor, bestAskFor, makerPrice, signalAgeMin,
    Risk.calculateQty, Risk.rolling24hLoss, pyInt, liveState, liveRisk,
    sampleState, sampleShared, sampleData, positionRecord, outcomeEvent]
  norm_num [hne, commitState,
    Config.MAX_FILLS_PER_SESSION, Config.MAX_STALK_POST_SIGNAL_MIN,
    Config.TIME_ENTRY_MAX_MIN, Config.MAX_ORDERBOOK_STALE_SEC,
    Config.MARKET_VETO_PRICE, Config.MARKET_MAX_ENTRY_PRICE,
    Config.MAX_DAILY_LOSS, Config.FLAT_FRAC_PCT, Config.MAX_CONTRACTS_LIMIT]

/-- The outcome resolution of `_bg_settle` (366-370): a verified `"yes"` or
`"no"` result is authoritative; otherwise fall back to comparing the last
observed spot price to the strike (`1 if spot > strike else 0`). -/
def resolveOutcome (verified : Option String) (settlementBtcPrice strike : ℚ) : ℕ :=
  if verified = some "yes" then 1
  else if verified = some "no" then 0
  else if strike < settlementBtcPrice then 1 else 0

/-- The settlement provenance tag (371): `"kalshi_verified"` when a truthy
verified result exists, `"spot_fallback"` otherwise. -/
def settlementSource (verified : Option String) : String :=
  match verified with
  | none => "spot_fallback"
  | some v => if v = "" then "spot_fallback" else "kalshi_verified"

/-- Result of a settlement: the updated risk state, the emitted log event and
the realized PnL of the trade. -/
structure SettleResult where
  risk : Risk
  event : String
  pnl : ℚ
deriving DecidableEq

/-- The win condition of `_bg_settle` (374-377). -/
def positionWon (p : Position) (outcome : ℕ) : Prop :=
  (p.side = Side.yes ∧ outcome = 1) ∨ (p.side = Side.no ∧ outcome = 0)

instance (p : Position) (outcome : ℕ) : Decidable (positionWon p outcome) := by
  unfold positionWon; infer_instance

/-- The position branch of `_bg_settle` (394-407): on a win, payout
`qty · $1.00`, cost `qty · entry/100`, pnl `payout − cost`, bankroll
credited by the payout and pnl recorded, event PAYOUT; on a loss, pnl
`−cost` recorded with no credit, event SETTLE. -/
def settlePosition (risk0 : Risk) (p : Position) (outcome : ℕ) (now : ℚ) :
    SettleResult :=
  if positionWon p outcome then
    let payout : ℚ := (p.qty : ℚ) * 1
    let cost : ℚ := (p.qty : ℚ) * ((p.entryPrice : ℚ) / 100)
    { risk := Risk.recordPnl
        { risk0 with paperBalance := risk0.paperBalance + payout } now
        (payout - cost),
      event := "PAYOUT", pnl := payout - cost }
  else
    let cost : ℚ := (p.qty : ℚ) * ((p.entryPrice : ℚ) / 100)
    { risk := Risk.recordPnl risk0 now (-cost), event := "SETTLE", pnl := -cost }

/-- `_bg_settle` (352-413) after the polling loop: resolve the outcome, then
settle the position if one existed, else emit the informational
SETTLE_VERIFIED row. -/
def bgSettle (risk0 : Risk) (verified : Option String)
    (settlementBtcPrice strike : ℚ) (position : Option Position) (now : ℚ) :
    SettleResult :=
  match position with
  | some p =>
      settlePosition risk0 p (resolveOutcome verified settlementBtcPrice strike) now
  | none => { risk := risk0, event := "SETTLE_VERIFIED", pnl := 0 }

/-- Claim C5: a settled position wins exactly when (side yes ∧ outcome yes) or
(side no ∧ outcome no); a win pays out `qty · $1.00`, credits the bankroll
by the payout exactly once, records `pnl = payout − cost` in the ledger and
logs PAYOUT; a loss records `pnl = −cost` with the bankroll unchanged and
logs SETTLE; with `qty = 10` at entry 30¢ this is `+$7.00` on a win and
`−$3.00` on a loss. -/
theorem C5_settlement_pnl :
    ∀ (risk0 : Risk) (verified : Option String) (spot strike : ℚ)
      (p : Position) (now : ℚ) (outcome : ℕ),
      bgSettle risk0 verified spot strike (some p) now
        = settlePosition risk0 p (resolveOutcome verified spot strike) now ∧
      (positionWon p outcome ↔
        (p.side = Side.yes ∧ outcome = 1) ∨ (p.side = Side.no ∧ outcome = 0)) ∧
      (positionWon p outcome →
        (settlePosition risk0 p outcome now).risk.paperBalance
            = risk0.paperBalance + (p.qty : ℚ) * 1 ∧
        (settlePosition risk0 p outcome now).pnl
            = (p.qty : ℚ) * 1 - (p.qty : ℚ) * ((p.entryPrice : ℚ) / 100) ∧
        (settlePosition risk0 p outcome now).risk.pnlHistory
            = pushBounded 5000 risk0.pnlHistory
                (now, (settlePosition risk0 p outcome now).pnl) ∧
        (settlePosition risk0 p outcome now).event = "PAYOUT") ∧
      (¬positionWon p outcome →
        (settlePosition risk0 p outcome now).risk.paperBalance = risk0.paperBalance ∧
        (settlePosition risk0 p outcome now).pnl
            = -((p.qty : ℚ) * ((p.entryPrice : ℚ) / 100)) ∧
        (settlePosition risk0 p outcome now).risk.pnlHistory
            = pushBounded 5000 risk0.pnlHistory
                (now, (settlePosition risk0 p outcome now).pnl) ∧
        (settlePosition risk0 p outcome now).event = "SETTLE") ∧
      (p.qty = 10 → p.entryPrice = 30 →
        (positionWon p outcome → (settlePosition risk0 p outcome now).pnl = 7) ∧
        (¬positionWon p outcome → (settlePosition risk0 p outcome now).pnl = -3)) := by
  intro risk0 verified spot strike p now outcome
  refine ⟨rfl, Iff.rfl, ?_, ?_, ?_⟩
  · intro hw
    simp [settlePosition, hw, Risk.recordPnl]
  · intro hw
    simp [settlePosition, hw, Risk.recordPnl]
  · intro hq he
    constructor
    · intro hw
      simp [settlePosition, hw, hq, he]
      norm_num
    · intro hw
      simp [settlePosition, hw, hq, he]
      norm_num

/-- A winning sample position: 10 contracts of yes at 30¢. -/
def samplePosition : Position :=
  { ticker := "KXBTC15M-SAMPLE", side := Side.yes, qty := 10, entryPrice := 30,
    utSignal := some Signal.buy, utAtr := 5, utStop := 49000,
    signalBirthTime := 600, signalAgeMin := 5 }

/-- Claim C5 witness: settling `samplePosition` against a verified yes outcome
credits the bankroll by $10 with pnl +$7; the same position against a
verified no outcome loses with pnl −$3 and the bankroll untouched. -/
theorem C5_settlement_witness :
    ((settlePosition sampleRisk samplePosition 1 0).risk.paperBalance
        = sampleRisk.paperBalance + ((10 : ℤ) : ℚ) * 1 ∧
      (settlePosition sampleRisk samplePosition 1 0).pnl
        = ((10 : ℤ) : ℚ) * 1 - ((10 : ℤ) : ℚ) * (((30 : ℤ) : ℚ) / 100) ∧
      (settlePosition sampleRisk samplePosition 1 0).risk.pnlHistory
        = pushBounded 5000 sampleRisk.pnlHistory
            (0, (settlePosition sampleRisk samplePosition 1 0).pnl) ∧
      (settlePosition sampleRisk samplePosition 1 0).event = "PAYOUT") ∧
    (settlePosition sampleRisk samplePosition 1 0).pnl = 7 ∧
    ((settlePosition sampleRisk samplePosition 0 0).risk.paperBalance
        = sampleRisk.paperBalance ∧
      (settlePosition sampleRisk samplePosition 0 0).pnl
        = -(((10 : ℤ) : ℚ) * (((30 : ℤ) : ℚ) / 100)) ∧
      (settlePosition sampleRisk samplePosition 0 0).risk.pnlHistory
        = pushBounded 5000 sampleRisk.pnlHistory
            (0, (settlePosition sampleRisk samplePosition 0 0).pnl) ∧
      (settlePosition sampleRisk samplePosition 0 0).event = "SETTLE") ∧
    (settlePosition sampleRisk samplePosition 0 0).pnl = -3 := by
  have hwin : positionWon samplePosition 1 := by
    left; exact ⟨rfl, rfl⟩
  have hloss : ¬positionWon samplePosition 0 := by
    unfold positionWon samplePosition
    simp
  refine ⟨?_, ?_, ?_, ?_⟩
  · have := (C5_settlement_pnl sampleRisk (some "yes") 0 0 samplePosition 0 1).2.2.1 hwin
    simpa [samplePosition] using this
  · exact ((C5_settlement_pnl sampleRisk (some "yes") 0 0 samplePosition 0 1).2.2.2.2
      rfl rfl).1 hwin
  · have := (C5_settlement_pnl sampleRisk (some "no") 0 0 samplePosition 0 0).2.2.2.1 hloss
    simpa [samplePosition] using this
  · exact ((C5_settlement_pnl sampleRisk (some "no") 0 0 samplePosition 0 0).2.2.2.2
      rfl rfl).2 hloss

/-- Claim C6: `calculate_qty` returns 0 whenever the absolute rolling 24h loss
exceeds the configured max daily loss or the bankroll is ≤ 0; otherwise it
returns `floor(bankroll · 2% / (entry/100))` clamped to `[0, 250]`; and
`rolling_24h_loss` sums exactly the negative ledger entries inside the
trailing 24h window — a loss 25h old is excluded, one 23h old is included,
and positive entries never count. -/
theorem C6_calculate_qty :
    ∀ (r : Risk) (pm : Bool) (now : ℚ) (entry : ℤ),
      ((Config.MAX_DAILY_LOSS < |r.rolling24hLoss now| ∨
          (if pm then r.paperBalance else r.realBalance) ≤ 0) →
        r.calculateQty pm now entry = 0) ∧
      (¬Config.MAX_DAILY_LOSS < |r.rolling24hLoss now| →
        0 < (if pm then r.paperBalance else r.realBalance) →
        0 < entry →
        r.calculateQty pm now entry
          = min (max 0 ⌊((if pm then r.paperBalance else r.realBalance)
              * Config.FLAT_FRAC_PCT) / ((entry : ℚ) / 100)⌋) 250) ∧
      (∀ (pb rb l1 l2 g now2 : ℚ), l1 < 0 → l2 < 0 → 0 < g →
        Risk.rolling24hLoss
          { paperBalance := pb, realBalance := rb,
            pnlHistory := [(now2 - 90000, l1), (now2 - 82800, l2), (now2 - 100, g)] }
          now2 = l2) := by
  intro r pm now entry
  refine ⟨?_, ?_, ?_⟩
  · intro h
    simp only [Risk.calculateQty]
    rw [if_pos h]
  · intro h1 h2 h3
    have hcond : ¬(Config.MAX_DAILY_LOSS < |r.rolling24hLoss now| ∨
        (if pm then r.paperBalance else r.realBalance) ≤ 0) := by
      push_neg
      exact ⟨le_of_not_lt h1, by linarith⟩
    simp only [Risk.calculateQty]
    rw [if_neg hcond]
    have harg : 0 ≤ ((if pm then r.paperBalance else r.realBalance)
        * Config.FLAT_FRAC_PCT) / ((entry : ℚ) / 100) := by
      apply div_nonneg
      · apply mul_nonneg h2.le
        norm_num [Config.FLAT_FRAC_PCT]
      · have : (0 : ℚ) < (entry : ℚ) := by exact_mod_cast h3
        positivity
    rw [pyInt, if_pos harg]
    rfl
  · intro pb rb l1 l2 g now2 hl1 hl2 hg
    have c1 : ¬(now2 - 86400 < now2 - 90000) := by linarith
    have c2 : now2 - 86400 < now2 - 82800 := by linarith
    have c3 : now2 - 86400 < now2 - 100 := by linarith
    have c4 : ¬(g < 0) := by linarith
    simp [Risk.rolling24hLoss, c1, c2, c3, c4, hl2]

/-- Claim C6 witness: a zero paper bankroll yields quantity 0; the sample
$820 bankroll at entry 41¢ yields the clamped floor; and on the concrete
ledger the 25h-old loss is excluded, the 23h-old loss `-7` is the rolling
loss, and the positive entry is ignored. -/
theorem C6_calculate_qty_witness :
    Risk.calculateQty { paperBalance := 0, realBalance := 500, pnlHistory := [] }
        true 0 41 = 0 ∧
    sampleRisk.calculateQty true 900 41
      = min (max 0 ⌊((if true then sampleRisk.paperBalance else sampleRisk.realBalance)
          * Config.FLAT_FRAC_PCT) / (((41 : ℤ) : ℚ) / 100)⌋) 250 ∧
    Risk.rolling24hLoss
      { paperBalance := 1000, realBalance := 0,
        pnlHistory := [(100000 - 90000, -5), (100000 - 82800, -7), (100000 - 100, 3)] }
      100000 = -7 :=
  ⟨(C6_calculate_qty { paperBalance := 0, realBalance := 500, pnlHistory := [] }
      true 0 41).1 (Or.inr (by norm_num)),
   (C6_calculate_qty sampleRisk true 900 41).2.1
      (by norm_num [Risk.rolling24hLoss, sampleRisk, Config.MAX_DAILY_LOSS])
      (by norm_num [sampleRisk]) (by norm_num),
   (C6_calculate_qty sampleRisk true 0 1).2.2 1000 0 (-5) (-7) 3 100000
      (by norm_num) (by norm_num) (by norm_num)⟩

/-- The best-bid extraction of `kalshi_market_loop` (749-750):
`sorted(levels, key=price, reverse=True)[0][0]` when the book side is
non-empty, else 0. -/
def bestBidOf (book : List (ℤ × ℤ)) : ℤ :=
  match book.map Prod.fst with
  | [] => 0
  | p :: ps => ps.foldl max p

theorem le_foldl_max (l : List ℤ) : ∀ b : ℤ, b ≤ l.foldl max b := by
  induction l with
  | nil => intro b; simp
  | cons a t ih =>
      intro b
      calc b ≤ max b a := le_max_left b a
        _ ≤ t.foldl max (max b a) := ih (max b a)

theorem bestBidOf_pos (book : List (ℤ × ℤ)) (hall : ∀ l ∈ book, 1 ≤ l.1)
    (hne : book ≠ []) : 1 ≤ bestBidOf book := by
  cases book with
  | nil => exact absurd rfl hne
  | cons b bs =>
      have hb : 1 ≤ b.1 := hall b (List.mem_cons_self b bs)
      calc (1 : ℤ) ≤ b.1 := hb
        _ ≤ (bs.map Prod.fst).foldl max b.1 := le_foldl_max _ b.1
        _ = bestBidOf (b :: bs) := by simp [bestBidOf]

/-- The market tick construction of `kalshi_market_loop` (744-773): best bids
from each book side, asks synthesized from the *opposite* side's best bid
(`100 - n_bid if n_bid > 0 else 99`, and symmetrically), top-5 liquidity,
and the order-book imbalance. -/
def mkMarketData (ticker : String) (strike minutesLeft : ℚ)
    (yesBook noBook : List (ℤ × ℤ)) : MarketData :=
  let yBid := bestBidOf yesBook
  let nBid := bestBidOf noBook
  let yLiq := ((yesBook.take 5).map Prod.snd).sum
  let nLiq := ((noBook.take 5).map Prod.snd).sum
  { ticker := ticker, strike := strike, minutesLeft := minutesLeft,
    rawYesBid := yBid, rawNoBid := nBid,
    askYes := if 0 < nBid then 100 - nBid else 99,
    askNo := if 0 < yBid then 100 - yBid else 99,
    yesLiq := yLiq, noLiq := nLiq,
    obi := if 0 < yLiq + nLiq then ((yLiq : ℚ) - (nLiq : ℚ)) / ((yLiq : ℚ) + (nLiq : ℚ))
           else 0 }

/-- Claim C10: in every tick built by the market loop from order books whose
levels carry positive cent prices, the yes ask is `100 −` the best no bid
when a no bid exists and 99 otherwise, symmetrically for the no ask, and
the best ask consumed by the maker-pricing rule for the chosen side is
exactly that synthesized field — never an observed ask quote. -/
theorem C10_synthesized_asks :
    ∀ (ticker : String) (strike minutesLeft : ℚ)
      (yesBook noBook : List (ℤ × ℤ)),
      (∀ l ∈ yesBook, 1 ≤ l.1) → (∀ l ∈ noBook, 1 ≤ l.1) →
      ((noBook ≠ [] →
          (mkMarketData ticker strike minutesLeft yesBook noBook).askYes
            = 100 - bestBidOf noBook) ∧
       (noBook = [] →
          (mkMarketData ticker strike minutesLeft yesBook noBook).askYes = 99) ∧
       (yesBook ≠ [] →
          (mkMarketData ticker strike minutesLeft yesBook noBook).askNo
            = 100 - bestBidOf yesBook) ∧
       (yesBook = [] →
          (mkMarketData ticker strike minutesLeft yesBook noBook).askNo = 99) ∧
       (∀ sh : Shared,
          bestAskFor (tickSide sh) (mkMarketData ticker strike minutesLeft yesBook noBook)
            = if tickSide sh = Side.yes then
                (mkMarketData ticker strike minutesLeft yesBook noBook).askYes
              else
                (mkMarketData ticker strike minutesLeft yesBook noBook).askNo)) := by
  intro ticker strike minutesLeft yesBook noBook hy hn
  refine ⟨?_, ?_, ?_, ?_, ?_⟩
  · intro hne
    have : (0 : ℤ) < bestBidOf noBook :=
      lt_of_lt_of_le one_pos (bestBidOf_pos noBook hn hne)
    simp [mkMarketData, this]
  · intro he
    subst he
    simp [mkMarketData, bestBidOf]
  · intro hne
    have : (0 : ℤ) < bestBidOf yesBook :=
      lt_of_lt_of_le one_pos (bestBidOf_pos yesBook hy hne)
    simp [mkMarketData, this]
  · intro he
    subst he
    simp [mkMarketData, bestBidOf]
  · intro sh
    cases hcs : tickSide sh <;> simp [bestAskFor, hcs]

/-- Claim C10 witness: on the concrete books yes `[(40,100),(38,50)]` and no
`[(55,200)]`, the synthesized asks are `100−55 = 45` and `100−40 = 60`,
and the buy-side pricing consumes exactly the synthesized yes ask. -/
theorem C10_synthesized_asks_witness :
    (mkMarketData "T" 0 5 [(40, 100), (38, 50)] [(55, 200)]).askYes
      = 100 - bestBidOf [(55, 200)] ∧
    (mkMarketData "T" 0 5 [(40, 100), (38, 50)] [(55, 200)]).askNo
      = 100 - bestBidOf [(40, 100), (38, 50)] ∧
    bestAskFor (tickSide sampleShared)
        (mkMarketData "T" 0 5 [(40, 100), (38, 50)] [(55, 200)])
      = if tickSide sampleShared = Side.yes then
          (mkMarketData "T" 0 5 [(40, 100), (38, 50)] [(55, 200)]).askYes
        else
          (mkMarketData "T" 0 5 [(40, 100), (38, 50)] [(55, 200)]).askNo :=
  ⟨((C10_synthesized_asks "T" 0 5 [(40, 100), (38, 50)] [(55, 200)]
      (by intro l hl; fin_cases hl <;> norm_num)
      (by intro l hl; fin_cases hl <;> norm_num))).1 (by simp),
   ((C10_synthesized_asks "T" 0 5 [(40, 100), (38, 50)] [(55, 200)]
      (by intro l hl; fin_cases hl <;> norm_num)
      (by intro l hl; fin_cases hl <;> norm_num))).2.2.1 (by simp),
   ((C10_synthesized_asks "T" 0 5 [(40, 100), (38, 50)] [(55, 200)]
      (by intro l hl; fin_cases hl <;> norm_num)
      (by intro l hl; fin_cases hl <;> norm_num))).2.2.2.2 sampleShared⟩
